import Mathlib

/-!
Shallow embedding of the Auto-Organize orchestration engine of the
`suryp_desktop` repository (the `Dashboard` component): the data model,
the four session operations `handleStartOrganize`, `handleExecuteOrganize`,
`handleGenerateRules` and `resetOrganize`, and the collaborator calls they
issue.  External collaborators (Tauri commands and the remote HTTP API) are
modelled as oracle functions supplied as an argument; each operation
returns the updated session state together with the linearized trace of
collaborator calls it issued.
-/

namespace Suryp

/-- The `OrganizeStep` union type of the source:
`'idle' | 'scanning' | 'analyzing' | 'preview' | 'executing' | 'done'`. -/
inductive OrganizeStep where
  | idle
  | scanning
  | analyzing
  | preview
  | executing
  | done
deriving DecidableEq, Repr

/-- The `ScannedFile` interface. `modified` is `string | null` in the source. -/
structure ScannedFile where
  filename : String
  extension : String
  size_bytes : Nat
  path : String
  modified : Option String
deriving DecidableEq, Repr

/-- The `FolderSuggestion` interface. `confidence` is a required `number`
field; it is modelled over `ℚ`. -/
structure FolderSuggestion where
  folder_path : String
  folder_name : String
  files : List String
  reason : String
  confidence : ℚ
  file_count : Nat
deriving DecidableEq, Repr

/-- The `OrganizeResult` interface. -/
structure OrganizeResult where
  folders : List FolderSuggestion
  total_files : Nat
  total_folders : Nat
  clustering_method : String
  naming_method : String
deriving DecidableEq, Repr

/-- The `ExistingFolder` interface. -/
structure ExistingFolder where
  folder_name : String
  folder_path : String
  sample_files : List String
  file_count : Nat
deriving DecidableEq, Repr

/-- The `SuggestedRule` interface; `selected?` is an optional boolean. -/
structure SuggestedRule where
  rule_type : String
  pattern : String
  target_folder : String
  file_count : Nat
  confidence : ℚ
  description : String
  selected : Option Bool
deriving DecidableEq, Repr

/-- One element of the `filesForApi` array built in `handleStartOrganize`
(file metadata sent to the analyze endpoint, with a `content_preview`). -/
structure FileForApi where
  filename : String
  extension : String
  size_bytes : Nat
  content_preview : String
  path : String
deriving DecidableEq, Repr

/-- A move action built in `handleExecuteOrganize`. -/
structure MoveOperation where
  source_path : String
  dest_folder : String
  filename : String
deriving DecidableEq, Repr

/-- The result shape of the `execute_file_moves` Tauri command. -/
structure MoveExecutionResult where
  success : Bool
  moved_count : Nat
  errors : List String
deriving DecidableEq, Repr

/-- The body of the `POST /api/auto-organize/extract-content` request. -/
structure ExtractRequest where
  content_base64 : String
  extension : String
  filename : String
deriving DecidableEq, Repr

/-- The data of the extract-content response. -/
structure ExtractData where
  content_preview : String
deriving DecidableEq, Repr

/-- The body of the `POST /api/auto-organize/analyze` request. -/
structure AnalyzeRequest where
  files : List FileForApi
  existing_folders : List ExistingFolder
  use_existing_folders : Bool
  use_gemini_naming : Bool
  use_gemini_full : Bool
  custom_prompt : String
  min_clusters : Nat
  max_clusters : Nat
deriving DecidableEq, Repr

/-- The body of the `POST /api/actions/log` request. -/
structure LogRequest where
  filename : String
  source_path : String
  dest_path : String
  confidence : ℚ
deriving DecidableEq, Repr

/-- The body of the `POST /api/auto-organize/generate-rules` request. -/
structure GenerateRulesRequest where
  folders : List FolderSuggestion
  source_folder : String
deriving DecidableEq, Repr

/-- The data of the generate-rules response. -/
structure RulesData where
  rules : List SuggestedRule
  total_rules : Nat
deriving DecidableEq, Repr

/-- An HTTP response as seen through the Tauri `fetch` wrapper:
an `ok` flag, the numeric status, and the parsed data. -/
structure HttpResp (α : Type) where
  ok : Bool
  status : Nat
  data : α
deriving DecidableEq, Repr

/-- A Tauri `invoke` call issued by the component, with its arguments. -/
inductive TauriCall where
  | scanFolderForOrganize (folderPath : String)
  | getAccessToken
  | scanExistingFolders (folderPath : String)
  | readFileContent (filePath : String) (maxBytes : Nat)
  | executeFileMoves (baseFolder : String) (moves : List MoveOperation) (createFolders : Bool)
  | getRecentActions
deriving DecidableEq, Repr

/-- A remote HTTP call issued by the component, with its request body. -/
inductive HttpCall where
  | extractContent (req : ExtractRequest)
  | analyze (req : AnalyzeRequest)
  | logAction (req : LogRequest)
  | generateRules (req : GenerateRulesRequest)
deriving DecidableEq, Repr

/-- One collaborator call: either a local Tauri command or a remote HTTP call. -/
inductive Call where
  | tauri (c : TauriCall)
  | http (c : HttpCall)
deriving DecidableEq, Repr

/-- Whether a call is a remote (network) call. -/
def Call.isRemote : Call → Bool
  | .tauri _ => false
  | .http _ => true

/-- Whether a call is the analyze HTTP call. -/
def Call.isAnalyze : Call → Bool
  | .http (.analyze _) => true
  | _ => false

/-- The boolean organize options held in component state
(`useGeminiNaming`, `useGeminiFull`, `useExistingFolders`,
`useContentExtraction`, `customPrompt`). -/
structure OrganizeOptions where
  useGeminiNaming : Bool
  useGeminiFull : Bool
  useExistingFolders : Bool
  useContentExtraction : Bool
  customPrompt : String
deriving DecidableEq, Repr

/-- The organize-session slice of the `Dashboard` component state. -/
structure OrganizeSession where
  showAutoOrganize : Bool
  selectedFolder : String
  organizeStep : OrganizeStep
  organizeStatus : String
  scannedFiles : List ScannedFile
  organizeResult : Option OrganizeResult
  suggestedRules : List SuggestedRule
  showRulesModal : Bool
  options : OrganizeOptions
deriving DecidableEq, Repr

/-- The collaborators consumed by the component, as oracle functions.
`Except String α` models a promise that either resolves with `α` or
rejects with an error message. -/
structure Collaborators where
  scan_folder_for_organize : String → Except String (List ScannedFile)
  get_access_token : Except String (Option String)
  scan_existing_folders : String → Except String (List ExistingFolder)
  read_file_content : String → Nat → Except String (List Nat)
  extractContentApi : ExtractRequest → Except String (HttpResp ExtractData)
  analyzeApi : AnalyzeRequest → Except String (HttpResp OrganizeResult)
  execute_file_moves : String → List MoveOperation → Bool → Except String MoveExecutionResult
  logActionApi : LogRequest → Except String (HttpResp Unit)
  generateRulesApi : GenerateRulesRequest → Except String (HttpResp RulesData)

/-- JavaScript truthiness of the access token: `!accessToken` holds when the
token is `null` or the empty string. -/
def tokenAbsent : Option String → Bool
  | none => true
  | some t => t = ""

/-- The `resetOrganize` handler: resets every organize-session field
(the options are left untouched, as in the source). -/
def resetOrganize (s : OrganizeSession) : OrganizeSession :=
  { s with
    showAutoOrganize := false
    selectedFolder := ""
    organizeStep := .idle
    organizeStatus := ""
    scannedFiles := []
    organizeResult := none
    suggestedRules := []
    showRulesModal := false }

/-- The filename lookup `scannedFiles.find(f => f.filename === filename)`
followed by `file?.path || ''`: the path of the first scanned file with the
given filename, or `""` when none matches (or the match has an empty path). -/
def resolvePath (scannedFiles : List ScannedFile) (filename : String) : String :=
  match scannedFiles.find? (fun f => f.filename = filename) with
  | some f => f.path
  | none => ""

/-- The move-construction step of `handleExecuteOrganize`: one candidate per
`(folder, filename)` pair, with candidates whose `source_path` is falsy
(empty) filtered out. -/
def buildMoves (result : OrganizeResult) (scannedFiles : List ScannedFile) :
    List MoveOperation :=
  result.folders.flatMap (fun folder =>
    (folder.files.map (fun filename =>
      ({ source_path := resolvePath scannedFiles filename
         dest_folder := folder.folder_path
         filename := filename } : MoveOperation))).filter
      (fun m => m.source_path ≠ ""))

/-- The JavaScript expression `folder.confidence || 0.9`: a falsy (zero)
confidence is replaced by `0.9`. -/
def confOrDefault (c : ℚ) : ℚ :=
  if c = 0 then 9 / 10 else c

/-- The base64 alphabet used by `btoa`. -/
def base64Alphabet : List Char :=
  "ABCDEFGHIJKLMNOPQRSTUVWXYZabcdefghijklmnopqrstuvwxyz0123456789+/".toList

/-- The base64 digit for a 6-bit value. -/
def b64Char (n : Nat) : Char :=
  base64Alphabet.getD n 'A'

/-- The `btoa(String.fromCharCode(...bytes))` conversion: standard base64
of the byte sequence (each JS number reduced to a byte). -/
def btoaBytes : List Nat → String
  | [] => ""
  | [a] =>
      let n := a % 256 * 16
      String.mk [b64Char (n / 64), b64Char (n % 64)] ++ "=="
  | [a, b] =>
      let n := (a % 256 * 256 + b % 256) * 4
      String.mk [b64Char (n / 4096), b64Char (n / 64 % 64), b64Char (n % 64)] ++ "="
  | a :: b :: c :: rest =>
      let n := a % 256 * 65536 + b % 256 * 256 + c % 256
      String.mk [b64Char (n / 262144), b64Char (n / 4096 % 64),
        b64Char (n / 64 % 64), b64Char (n % 64)] ++ btoaBytes rest

/-- The per-file body of the content-extraction loop: read up to 50000 bytes,
base64-encode, call the extract-content endpoint, and produce the preview to
store (or `none` when any step fails or yields nothing — the surrounding
`try/catch` swallows per-file errors).  Also returns the calls issued. -/
def extractOne (o : Collaborators) (file : ScannedFile) :
    Option String × List Call :=
  match o.read_file_content file.path 50000 with
  | .error _ => (none, [.tauri (.readFileContent file.path 50000)])
  | .ok content =>
    if content.length > 0 then
      let req : ExtractRequest :=
        { content_base64 := btoaBytes content
          extension := file.extension
          filename := file.filename }
      match o.extractContentApi req with
      | .error _ =>
          (none, [.tauri (.readFileContent file.path 50000), .http (.extractContent req)])
      | .ok resp =>
          (if resp.ok ∧ resp.data.content_preview ≠ "" then some resp.data.content_preview
           else none,
           [.tauri (.readFileContent file.path 50000), .http (.extractContent req)])
    else (none, [.tauri (.readFileContent file.path 50000)])

/-- The window loop of the content-extraction stage: the file list is
processed in slices of `batchSize = 5`; every file of a window runs
`extractOne` (the window settles before the next window starts).  Returns
the per-file preview outcomes in input order, and the calls issued. -/
def extractLoop (o : Collaborators) (files : List ScannedFile) :
    List (Option String) × List Call :=
  if h : files = [] then ([], [])
  else
    let batch := files.take 5
    let results := batch.map (extractOne o)
    let rest := extractLoop o (files.drop 5)
    (results.map Prod.fst ++ rest.1, results.flatMap Prod.snd ++ rest.2)
termination_by files.length
decreasing_by
  rw [List.length_drop]
  have := List.length_pos.mpr h
  omega

/-- The pairing of the scanned files with the per-file extraction outcomes:
`filesForApi` starts as the metadata of each file with an empty
`content_preview`, and the extraction loop fills entry `i` from file `i`
alone. -/
def buildFilesForApi (files : List ScannedFile) (prevs : List (Option String)) :
    List FileForApi :=
  List.zipWith (fun f p =>
    ({ filename := f.filename
       extension := f.extension
       size_bytes := f.size_bytes
       content_preview := p.getD ""
       path := f.path } : FileForApi)) files prevs

/-- The `catch` handler of `handleStartOrganize`:
`setOrganizeStatus` with the error message and `setOrganizeStep('idle')`. -/
def startCatch (s : OrganizeSession) (message : String) : OrganizeSession :=
  { s with organizeStatus := "❌ Ошибка: " ++ message, organizeStep := .idle }

/-- The code that runs once the analyze response arrives (source lines after
`await httpFetch(... /api/auto-organize/analyze ...)`): a non-ok response
throws (401 with the session-expired message, otherwise the raw status),
landing in the `catch`; an ok response stores the result, moves the step to
`preview` and reports the folder count. -/
def analyzeResponseHandler (resp : HttpResp OrganizeResult)
    (s : OrganizeSession) : OrganizeSession :=
  if resp.ok = false then
    if resp.status = 401 then
      startCatch s "Сессия истекла. Перезайдите в Настройках → Выйти."
    else
      startCatch s ("API error: " ++ toString resp.status)
  else
    { s with
      organizeResult := some resp.data
      organizeStep := .preview
      organizeStatus := "Готово: " ++ toString resp.data.total_folders ++ " папок" }

/-- The `handleStartOrganize` handler.  Transient `setOrganizeStatus` calls
inside the extraction block (the per-window progress strings) are elided
because the block unconditionally overwrites them before its next await can
fail; every state write observable at a suspension or exit point is kept. -/
def handleStartOrganize (o : Collaborators) (s0 : OrganizeSession) :
    OrganizeSession × List Call :=
  if s0.selectedFolder = "" then (s0, [])
  else
    let s := { s0 with organizeStep := .scanning, organizeStatus := "Сканирование папки..." }
    match o.scan_folder_for_organize s.selectedFolder with
    | .error e => (startCatch s e, [.tauri (.scanFolderForOrganize s.selectedFolder)])
    | .ok files =>
      let tr1 : List Call := [.tauri (.scanFolderForOrganize s.selectedFolder)]
      if files.length = 0 then
        ({ s with organizeStatus := "❌ Папка пуста", organizeStep := .idle }, tr1)
      else if files.length > 5000 then
        ({ s with
           organizeStatus := "❌ Слишком много файлов (" ++ toString files.length
             ++ "). Максимум 5000."
           organizeStep := .idle }, tr1)
      else
        let s := { s with
          scannedFiles := files
          organizeStatus := "Найдено " ++ toString files.length ++ " файлов. AI анализ..."
          organizeStep := .analyzing }
        match o.get_access_token with
        | .error e => (startCatch s e, tr1 ++ [.tauri .getAccessToken])
        | .ok accessToken =>
          let tr2 := tr1 ++ [Call.tauri .getAccessToken]
          if tokenAbsent accessToken then
            ({ s with
               organizeStatus := "❌ Требуется авторизация. Перезайдите в приложение."
               organizeStep := .idle }, tr2)
          else
            let efr : List ExistingFolder × OrganizeSession × List Call :=
              if s.options.useExistingFolders then
                match o.scan_existing_folders s.selectedFolder with
                | .ok efs =>
                    (efs,
                     { s with organizeStatus := "Найдено " ++ toString files.length
                         ++ " файлов, " ++ toString efs.length ++ " папок. AI анализ..." },
                     tr2 ++ [.tauri (.scanExistingFolders s.selectedFolder)])
                | .error _ =>
                    ([], s, tr2 ++ [.tauri (.scanExistingFolders s.selectedFolder)])
              else ([], s, tr2)
            let existingFolders := efr.1
            let s1 := efr.2.1
            let tr3 := efr.2.2
            let ext : List (Option String) × List Call :=
              if s1.options.useContentExtraction then extractLoop o files
              else (files.map (fun _ => none), [])
            let filesForApi := buildFilesForApi files ext.1
            let s2 :=
              if s1.options.useContentExtraction then
                { s1 with organizeStatus := "Анализ " ++ toString files.length ++ " файлов..." }
              else s1
            let tr4 := tr3 ++ ext.2
            let req : AnalyzeRequest :=
              { files := filesForApi
                existing_folders := existingFolders
                use_existing_folders := s2.options.useExistingFolders
                use_gemini_naming := s2.options.useGeminiNaming
                use_gemini_full := s2.options.useGeminiFull
                custom_prompt := s2.options.customPrompt
                min_clusters := 3
                max_clusters := 15 }
            match o.analyzeApi req with
            | .error e => (startCatch s2 e, tr4 ++ [.http (.analyze req)])
            | .ok resp => (analyzeResponseHandler resp s2, tr4 ++ [.http (.analyze req)])

/-- One iteration of the history-logging loop of `handleExecuteOrganize`:
look the filename up among the scanned files; when found, issue one
`POST /api/actions/log` call (its outcome is swallowed by the inner
`try/catch`, so both outcomes contribute the same trace and no state). -/
def logOne (o : Collaborators) (selectedFolder : String)
    (folder : FolderSuggestion) (scannedFiles : List ScannedFile)
    (filename : String) : List Call :=
  match scannedFiles.find? (fun f => f.filename = filename) with
  | none => []
  | some file =>
    let req : LogRequest :=
      { filename := file.filename
        source_path := file.path
        dest_path := selectedFolder ++ "\\" ++ folder.folder_path ++ "\\" ++ filename
        confidence := confOrDefault folder.confidence }
    match o.logActionApi req with
    | .ok _ => [.http (.logAction req)]
    | .error _ => [.http (.logAction req)]

/-- The nested history-logging loop of `handleExecuteOrganize`
(`for folder of folders, for filename of folder.files`). -/
def logActions (o : Collaborators) (selectedFolder : String)
    (result : OrganizeResult) (scannedFiles : List ScannedFile) : List Call :=
  result.folders.flatMap (fun folder =>
    folder.files.flatMap (logOne o selectedFolder folder scannedFiles))

/-- The `handleExecuteOrganize` handler. -/
def handleExecuteOrganize (o : Collaborators) (s0 : OrganizeSession) :
    OrganizeSession × List Call :=
  match s0.organizeResult with
  | none => (s0, [])
  | some organizeResult =>
    if s0.selectedFolder = "" then (s0, [])
    else
      let s := { s0 with organizeStep := .executing, organizeStatus := "Перемещение файлов..." }
      let moves := buildMoves organizeResult s.scannedFiles
      let tr1 : List Call := [.tauri (.executeFileMoves s.selectedFolder moves true)]
      match o.execute_file_moves s.selectedFolder moves true with
      | .error e =>
          ({ s with organizeStatus := "❌ Ошибка: " ++ e, organizeStep := .preview }, tr1)
      | .ok result =>
        if result.success ∨ result.moved_count > 0 then
          match o.get_access_token with
          | .error e =>
              ({ s with organizeStatus := "❌ Ошибка: " ++ e, organizeStep := .preview },
               tr1 ++ [.tauri .getAccessToken])
          | .ok accessToken =>
            let tr2 := tr1 ++ [Call.tauri .getAccessToken]
            let tr3 :=
              if tokenAbsent accessToken then tr2
              else tr2 ++ logActions o s.selectedFolder organizeResult s.scannedFiles
                ++ [.tauri .getRecentActions]
            ({ s with
               organizeStatus := "✅ Перемещено " ++ toString result.moved_count ++ " файлов!"
               organizeStep := .done }, tr3)
        else
          ({ s with
             organizeStatus := "⚠️ Перемещено " ++ toString result.moved_count
               ++ ", ошибок: " ++ toString result.errors.length
             organizeStep := .done }, tr1)

/-- The body of the generate-rules request built in `handleGenerateRules`
(each folder suggestion is rebuilt field by field, as in the source). -/
def genRulesReq (organizeResult : OrganizeResult) (selectedFolder : String) :
    GenerateRulesRequest :=
  { folders := organizeResult.folders.map (fun f =>
      ({ folder_path := f.folder_path
         folder_name := f.folder_name
         files := f.files
         reason := f.reason
         confidence := f.confidence
         file_count := f.file_count } : FolderSuggestion))
    source_folder := selectedFolder }

/-- The `handleGenerateRules` handler.  Its `catch` only writes to the
console, so a rejected token fetch or rules call leaves the session
unchanged. -/
def handleGenerateRules (o : Collaborators) (s0 : OrganizeSession) :
    OrganizeSession × List Call :=
  match s0.organizeResult with
  | none => (s0, [])
  | some organizeResult =>
    match o.get_access_token with
    | .error _ => (s0, [.tauri .getAccessToken])
    | .ok _ =>
      let req := genRulesReq organizeResult s0.selectedFolder
      let tr : List Call := [.tauri .getAccessToken, .http (.generateRules req)]
      match o.generateRulesApi req with
      | .error _ => (s0, tr)
      | .ok resp =>
        if resp.ok ∧ resp.data.rules.length > 0 then
          ({ s0 with
             suggestedRules := resp.data.rules.map (fun r => { r with selected := some true })
             showRulesModal := true }, tr)
        else
          ({ s0 with organizeStatus := "Не удалось найти паттерны для правил" }, tr)

/-! Concrete fixtures used to evaluate the operations on closed inputs. -/

/-- A scanned file fixture. -/
def fileA : ScannedFile :=
  { filename := "a.pdf", extension := "pdf", size_bytes := 10
    path := "/f/a.pdf", modified := none }

/-- A folder suggestion referencing `fileA` and an unscanned filename. -/
def folderDocs : FolderSuggestion :=
  { folder_path := "Docs", folder_name := "Docs", files := ["a.pdf", "d.txt"]
    reason := "docs", confidence := 1 / 2, file_count := 2 }

/-- A folder suggestion whose confidence is the falsy value `0`. -/
def folderDocs0 : FolderSuggestion :=
  { folderDocs with confidence := 0 }

/-- An organize result fixture. -/
def resultDocs : OrganizeResult :=
  { folders := [folderDocs], total_files := 1, total_folders := 1
    clustering_method := "kmeans", naming_method := "gemini" }

/-- An organize result fixture with a zero-confidence suggestion. -/
def resultDocs0 : OrganizeResult :=
  { resultDocs with folders := [folderDocs0] }

/-- Default organize options: every flag off except Gemini naming. -/
def optsBase : OrganizeOptions :=
  { useGeminiNaming := true, useGeminiFull := false, useExistingFolders := false
    useContentExtraction := false, customPrompt := "" }

/-- A base session: folder `/f` selected, idle. -/
def sBase : OrganizeSession :=
  { showAutoOrganize := true, selectedFolder := "/f", organizeStep := .idle
    organizeStatus := "", scannedFiles := [], organizeResult := none
    suggestedRules := [], showRulesModal := false, options := optsBase }

/-- Base collaborators: scanning finds `fileA`, a token is present, analysis
succeeds with `resultDocs`, moves succeed, logging succeeds. -/
def oBase : Collaborators :=
  { scan_folder_for_organize := fun _ => .ok [fileA]
    get_access_token := .ok (some "tok")
    scan_existing_folders := fun _ => .ok []
    read_file_content := fun _ _ => .ok [72, 105]
    extractContentApi := fun _ => .ok { ok := true, status := 200, data := { content_preview := "Hi" } }
    analyzeApi := fun _ => .ok { ok := true, status := 200, data := resultDocs }
    execute_file_moves := fun _ moves _ =>
      .ok { success := true, moved_count := moves.length, errors := [] }
    logActionApi := fun _ => .ok { ok := true, status := 200, data := () }
    generateRulesApi := fun _ =>
      .ok { ok := true, status := 200, data := { rules := [], total_rules := 0 } } }

/-- A session holding an approved plan (`resultDocs`) for folder `/f`. -/
def sExec : OrganizeSession :=
  { sBase with organizeResult := some resultDocs, scannedFiles := [fileA] }

/-- Collaborators whose move primitive rejects. -/
def oC7 : Collaborators :=
  { oBase with execute_file_moves := fun _ _ _ => .error "boom" }

/-- A session captured while the analyze call is in flight. -/
def sPending : OrganizeSession :=
  { sBase with
      organizeStep := .analyzing,
      scannedFiles := [fileA],
      organizeStatus := "Найдено 1 файлов. AI анализ..." }

/-- A successful analyze response carrying `resultDocs`. -/
def respOkDocs : HttpResp OrganizeResult :=
  { ok := true, status := 200, data := resultDocs }

/-- A rule returned by the generate-rules service, with `selected` omitted. -/
def ruleExt : SuggestedRule :=
  { rule_type := "extension", pattern := "*.pdf", target_folder := "Docs"
    file_count := 1, confidence := 4 / 5, description := "pdf to Docs", selected := none }

/-- A generate-rules response carrying one rule. -/
def rulesRespOne : HttpResp RulesData :=
  { ok := true, status := 200, data := { rules := [ruleExt], total_rules := 1 } }

/-- Collaborators whose generate-rules call returns one rule. -/
def oC9 : Collaborators :=
  { oBase with generateRulesApi := fun _ => .ok rulesRespOne }

/-- Claim C10: when the stored organize result is absent or the selected
folder is the empty string, invoking `handleExecuteOrganize` is a no-op:
the session (step, status, scanned files, result) is unchanged and no move
call and no log call is issued (the call trace is empty). -/
theorem c10_execute_noop (o : Collaborators) (s : OrganizeSession)
    (h : s.organizeResult = none ∨ s.selectedFolder = "") :
    handleExecuteOrganize o s = (s, []) := by
  unfold handleExecuteOrganize
  rcases h with h | h
  · rw [h]
  · cases hr : s.organizeResult with
    | none => rfl
    | some r => simp [h]

/-- Witness for C10 at a session with no stored result. -/
theorem c10_execute_noop_witness :
    handleExecuteOrganize oBase sBase = (sBase, []) :=
  c10_execute_noop oBase sBase (Or.inl rfl)

/-- Claim C7: when the move execution rejects, `handleExecuteOrganize`
moves the session to `preview` with an error status, and the approved plan
(the stored organize result and the scanned-file list) is unchanged, so
execution can be retried without re-running analysis. -/
theorem c7_execution_error_preserves_plan (o : Collaborators)
    (s : OrganizeSession) (r : OrganizeResult) (e : String)
    (hr : s.organizeResult = some r) (hf : s.selectedFolder ≠ "")
    (hm : o.execute_file_moves s.selectedFolder (buildMoves r s.scannedFiles) true
      = .error e) :
    (handleExecuteOrganize o s).1.organizeStep = .preview ∧
    (handleExecuteOrganize o s).1.organizeStatus = "❌ Ошибка: " ++ e ∧
    (handleExecuteOrganize o s).1.organizeResult = some r ∧
    (handleExecuteOrganize o s).1.scannedFiles = s.scannedFiles := by
  unfold handleExecuteOrganize
  rw [hr]
  simp [hf, hm, hr]

/-- Witness for C7: a rejected move call at the concrete plan. -/
theorem c7_execution_error_preserves_plan_witness :
    (handleExecuteOrganize oC7 sExec).1.organizeStep = .preview ∧
    (handleExecuteOrganize oC7 sExec).1.organizeStatus = "❌ Ошибка: " ++ "boom" ∧
    (handleExecuteOrganize oC7 sExec).1.organizeResult = some resultDocs ∧
    (handleExecuteOrganize oC7 sExec).1.scannedFiles = sExec.scannedFiles :=
  c7_execution_error_preserves_plan oC7 sExec resultDocs "boom" rfl (by decide) rfl

/-- Claim C1, evaluated at the failing interleaving: the source has no
stale-result guard.  `resetOrganize` (cancel) resets the session to idle
with no result and no scanned files, but the code that runs when the
pending analyze response later arrives (`analyzeResponseHandler`)
unconditionally stores the result and moves the step to `preview`,
mutating the canceled session state. -/
theorem c1_stale_result_mutates :
    (resetOrganize sPending).organizeStep = OrganizeStep.idle ∧
    (resetOrganize sPending).organizeResult = none ∧
    (resetOrganize sPending).scannedFiles = [] ∧
    (analyzeResponseHandler respOkDocs (resetOrganize sPending)).organizeStep
      = OrganizeStep.preview ∧
    (analyzeResponseHandler respOkDocs (resetOrganize sPending)).organizeResult
      = some resultDocs :=
  ⟨rfl, rfl, rfl, rfl, rfl⟩

/-- Claim C9: `handleGenerateRules` initializes every returned rule with
`selected = true`, and when the service returns no rules it sets the
neutral no-pattern status, leaving the step (and the rules list)
untouched rather than producing an error. -/
theorem c9_rules_selected_true (o : Collaborators) (s : OrganizeSession)
    (r : OrganizeResult) (tok : Option String) (resp : HttpResp RulesData)
    (hr : s.organizeResult = some r)
    (ht : o.get_access_token = .ok tok)
    (hresp : o.generateRulesApi (genRulesReq r s.selectedFolder) = .ok resp)
    (hok : resp.ok = true) :
    (resp.data.rules.length > 0 →
      (handleGenerateRules o s).1.suggestedRules =
        resp.data.rules.map (fun rule => { rule with selected := some true }) ∧
      ∀ rule ∈ (handleGenerateRules o s).1.suggestedRules,
        rule.selected = some true) ∧
    (resp.data.rules.length = 0 →
      (handleGenerateRules o s).1.organizeStatus =
        "Не удалось найти паттерны для правил" ∧
      (handleGenerateRules o s).1.organizeStep = s.organizeStep ∧
      (handleGenerateRules o s).1.suggestedRules = s.suggestedRules) := by
  unfold handleGenerateRules
  rw [hr]
  simp only [ht, hresp]
  constructor
  · intro hlen
    rw [if_pos ⟨hok, hlen⟩]
    refine ⟨rfl, ?_⟩
    intro rule hrule
    simp only [List.mem_map] at hrule
    obtain ⟨a, _, rfl⟩ := hrule
    rfl
  · intro hlen
    rw [if_neg (by simp [hlen])]
    exact ⟨rfl, rfl, rfl⟩

/-- Witness for C9 at a service returning one rule. -/
theorem c9_rules_selected_true_witness :
    (handleGenerateRules oC9 sExec).1.suggestedRules =
      [ruleExt].map (fun rule => { rule with selected := some true }) ∧
    ∀ rule ∈ (handleGenerateRules oC9 sExec).1.suggestedRules,
      rule.selected = some true := by
  have h := c9_rules_selected_true oC9 sExec resultDocs (some "tok") rulesRespOne
    rfl (by rfl) (by rfl) rfl
  exact h.1 (by decide)

/-- Collaborators with no access token available. -/
def oC2 : Collaborators :=
  { oBase with get_access_token := .ok none }

/-- A 401 analyze response (the attached data is irrelevant). -/
def respExpired : HttpResp OrganizeResult :=
  { ok := false, status := 401, data := resultDocs }

/-- Collaborators whose analyze call returns HTTP 401. -/
def oC3 : Collaborators :=
  { oBase with analyzeApi := fun _ => .ok respExpired }

/-- Collaborators whose scan finds an empty folder. -/
def oC4 : Collaborators :=
  { oBase with scan_folder_for_organize := fun _ => .ok [] }

/-- Claim C4: when the scan yields an empty list or more than 5000 files,
`handleStartOrganize` returns to `idle` with a validation message and the
call trace contains no remote (network) call. -/
theorem c4_validation_no_remote_calls (o : Collaborators) (s : OrganizeSession)
    (files : List ScannedFile)
    (hf : s.selectedFolder ≠ "")
    (hs : o.scan_folder_for_organize s.selectedFolder = .ok files)
    (hn : files.length = 0 ∨ 5000 < files.length) :
    (handleStartOrganize o s).1.organizeStep = .idle ∧
    ((handleStartOrganize o s).1.organizeStatus = "❌ Папка пуста" ∨
     (handleStartOrganize o s).1.organizeStatus =
       "❌ Слишком много файлов (" ++ toString files.length ++ "). Максимум 5000.") ∧
    ∀ c ∈ (handleStartOrganize o s).2, c.isRemote = false := by
  rcases hn with h0 | h5
  · simp [handleStartOrganize, hf, hs, h0, Call.isRemote]
  · have h0 : ¬files.length = 0 := by omega
    simp [handleStartOrganize, hf, hs, h0, h5, Call.isRemote]

/-- Witness for C4 at an empty folder. -/
theorem c4_validation_no_remote_calls_witness :
    (handleStartOrganize oC4 sBase).1.organizeStep = .idle ∧
    ((handleStartOrganize oC4 sBase).1.organizeStatus = "❌ Папка пуста" ∨
     (handleStartOrganize oC4 sBase).1.organizeStatus =
       "❌ Слишком много файлов (" ++ toString (List.length ([] : List ScannedFile))
         ++ "). Максимум 5000.") ∧
    ∀ c ∈ (handleStartOrganize oC4 sBase).2, c.isRemote = false :=
  c4_validation_no_remote_calls oC4 sBase [] (by decide) rfl (Or.inl rfl)

/-- Claim C2 as amended: when no access token is available, the session ends
idle with the authentication-required status and no analyze call is issued;
the folder scan call, however, has already been performed, because the token
is only checked after scanning. -/
theorem c2_auth_required_amended (o : Collaborators) (s : OrganizeSession)
    (files : List ScannedFile)
    (hf : s.selectedFolder ≠ "")
    (hs : o.scan_folder_for_organize s.selectedFolder = .ok files)
    (h0 : files.length ≠ 0) (h5 : files.length ≤ 5000)
    (ht : o.get_access_token = .ok none) :
    (handleStartOrganize o s).1.organizeStep = .idle ∧
    (handleStartOrganize o s).1.organizeStatus =
      "❌ Требуется авторизация. Перезайдите в приложение." ∧
    (∀ c ∈ (handleStartOrganize o s).2, c.isAnalyze = false) ∧
    Call.tauri (.scanFolderForOrganize s.selectedFolder) ∈ (handleStartOrganize o s).2 := by
  have h5' : ¬5000 < files.length := by omega
  simp [handleStartOrganize, hf, hs, h0, h5', ht, tokenAbsent, Call.isAnalyze]

/-- Witness for C2 (amended) at the concrete token-less collaborators. -/
theorem c2_auth_required_amended_witness :
    (handleStartOrganize oC2 sBase).1.organizeStep = .idle ∧
    (handleStartOrganize oC2 sBase).1.organizeStatus =
      "❌ Требуется авторизация. Перезайдите в приложение." ∧
    (∀ c ∈ (handleStartOrganize oC2 sBase).2, c.isAnalyze = false) ∧
    Call.tauri (.scanFolderForOrganize sBase.selectedFolder) ∈ (handleStartOrganize oC2 sBase).2 :=
  c2_auth_required_amended oC2 sBase [fileA] (by decide) rfl (by decide) (by decide) rfl

/-- Counterexample to C2 as stated: with the token absent, the orchestrator
does end idle with the authentication-required status, yet the scan call IS
performed (it is in the trace), contradicting the claim that no scan call
occurs. -/
theorem c2_scan_call_occurs_cex :
    (handleStartOrganize oC2 sBase).1.organizeStep = OrganizeStep.idle ∧
    (handleStartOrganize oC2 sBase).1.organizeStatus =
      "❌ Требуется авторизация. Перезайдите в приложение." ∧
    Call.tauri (TauriCall.scanFolderForOrganize "/f") ∈ (handleStartOrganize oC2 sBase).2 := by
  refine ⟨rfl, rfl, ?_⟩
  have h : (handleStartOrganize oC2 sBase).2 =
      [Call.tauri (.scanFolderForOrganize "/f"), Call.tauri .getAccessToken] := rfl
  rw [h]
  exact List.mem_cons_self _ _

/-- Claim C3 as amended: an HTTP 401 from the analyze call sends the session
to `idle` with the session-expired error status, but the scanned-file list
is retained in state, not discarded. -/
theorem c3_session_expired_amended (o : Collaborators) (s : OrganizeSession)
    (files : List ScannedFile) (resp : HttpResp OrganizeResult) (tok : Option String)
    (hf : s.selectedFolder ≠ "")
    (hs : o.scan_folder_for_organize s.selectedFolder = .ok files)
    (h0 : files.length ≠ 0) (h5 : files.length ≤ 5000)
    (ht : o.get_access_token = .ok tok) (htok : tokenAbsent tok = false)
    (han : ∀ q, o.analyzeApi q = .ok resp)
    (hok : resp.ok = false) (h401 : resp.status = 401) :
    (handleStartOrganize o s).1.organizeStep = .idle ∧
    (handleStartOrganize o s).1.organizeStatus =
      "❌ Ошибка: Сессия истекла. Перезайдите в Настройках → Выйти." ∧
    (handleStartOrganize o s).1.scannedFiles = files := by
  have h5' : ¬5000 < files.length := by omega
  cases hue : s.options.useExistingFolders <;>
    cases hce : s.options.useContentExtraction <;>
    cases hse : o.scan_existing_folders s.selectedFolder <;>
    simp [handleStartOrganize, startCatch, analyzeResponseHandler,
      hf, hs, h0, h5', ht, htok, han, hok, h401, hue, hce, hse]

/-- Witness for C3 (amended) at the concrete 401 collaborators. -/
theorem c3_session_expired_amended_witness :
    (handleStartOrganize oC3 sBase).1.organizeStep = .idle ∧
    (handleStartOrganize oC3 sBase).1.organizeStatus =
      "❌ Ошибка: Сессия истекла. Перезайдите в Настройках → Выйти." ∧
    (handleStartOrganize oC3 sBase).1.scannedFiles = [fileA] :=
  c3_session_expired_amended oC3 sBase [fileA] respExpired (some "tok")
    (by decide) rfl (by decide) (by decide) rfl rfl (fun _ => rfl) rfl rfl

/-- Counterexample to C3 as stated: after the 401 the session is idle with
the session-expired status, yet the scanned-file list is NOT emptied. -/
theorem c3_scanned_files_retained_cex :
    (handleStartOrganize oC3 sBase).1.organizeStep = OrganizeStep.idle ∧
    (handleStartOrganize oC3 sBase).1.organizeStatus =
      "❌ Ошибка: Сессия истекла. Перезайдите в Настройках → Выйти." ∧
    (handleStartOrganize oC3 sBase).1.scannedFiles ≠ [] := by
  refine ⟨rfl, rfl, ?_⟩
  have h : (handleStartOrganize oC3 sBase).1.scannedFiles = [fileA] := rfl
  rw [h]
  simp

/-- Claim C6: the move-construction step builds exactly one `MoveOperation`
per `(folder, filename)` pair whose filename resolves against the scanned
files (in pair order), and a pair whose filename does not resolve appears in
no constructed operation — it is dropped before submission, so the batch
handed to the move primitive never mentions it. -/
theorem c6_moves_resolvable_pairs (result : OrganizeResult)
    (scannedFiles : List ScannedFile) :
    buildMoves result scannedFiles =
      result.folders.flatMap (fun folder =>
        (folder.files.filter
            (fun filename => resolvePath scannedFiles filename ≠ "")).map
          (fun filename =>
            ({ source_path := resolvePath scannedFiles filename
               dest_folder := folder.folder_path
               filename := filename } : MoveOperation))) ∧
    ∀ filename, resolvePath scannedFiles filename = "" →
      ∀ m ∈ buildMoves result scannedFiles, m.filename ≠ filename := by
  constructor
  · unfold buildMoves
    congr 1
    funext folder
    rw [List.filter_map]
    rfl
  · intro filename h m hm hmf
    unfold buildMoves at hm
    simp only [List.mem_flatMap, List.mem_filter, List.mem_map] at hm
    obtain ⟨folder, _, ⟨fn, _, rfl⟩, hp⟩ := hm
    simp only [decide_eq_true_eq] at hp
    have hfn2 : fn = filename := hmf
    exact hp (by rw [hfn2]; exact h)

/-- Witness for C6: the suggestion references `a.pdf` (resolvable) and
`d.txt` (never scanned); exactly the `a.pdf` move is constructed and no
operation mentions `d.txt`. -/
theorem c6_moves_resolvable_pairs_witness :
    buildMoves resultDocs [fileA] =
      resultDocs.folders.flatMap (fun folder =>
        (folder.files.filter
            (fun filename => resolvePath [fileA] filename ≠ "")).map
          (fun filename =>
            ({ source_path := resolvePath [fileA] filename
               dest_folder := folder.folder_path
               filename := filename } : MoveOperation))) ∧
    ∀ m ∈ buildMoves resultDocs [fileA], m.filename ≠ "d.txt" :=
  ⟨(c6_moves_resolvable_pairs resultDocs [fileA]).1,
   (c6_moves_resolvable_pairs resultDocs [fileA]).2 "d.txt" (by decide)⟩

/-- The window loop of the extraction stage is the pointwise map of
`extractOne`: each file's outcome depends on that file alone, and the
windows concatenate in input order. -/
theorem extractLoop_eq_map (o : Collaborators) :
    ∀ (n : Nat) (files : List ScannedFile), files.length ≤ n →
      extractLoop o files =
        (files.map (fun f => (extractOne o f).1),
         files.flatMap (fun f => (extractOne o f).2)) := by
  intro n
  induction n with
  | zero =>
    intro files h
    have hf : files = [] := List.eq_nil_of_length_eq_zero (Nat.le_zero.mp h)
    subst hf
    rw [extractLoop]
    simp
  | succ n ih =>
    intro files h
    rw [extractLoop]
    by_cases hf : files = []
    · subst hf; simp
    · simp only [dif_neg hf]
      have hlen : (files.drop 5).length ≤ n := by
        rw [List.length_drop]
        have := List.length_pos.mpr hf
        omega
      rw [ih (files.drop 5) hlen]
      refine Prod.ext ?_ ?_
      · show ((files.take 5).map (extractOne o)).map Prod.fst
            ++ (files.drop 5).map (fun f => (extractOne o f).1)
          = files.map (fun f => (extractOne o f).1)
        conv_rhs => rw [← List.take_append_drop 5 files]
        rw [List.map_append, List.map_map]
        rfl
      · show ((files.take 5).map (extractOne o)).flatMap Prod.snd
            ++ (files.drop 5).flatMap (fun f => (extractOne o f).2)
          = files.flatMap (fun f => (extractOne o f).2)
        conv_rhs => rw [← List.take_append_drop 5 files]
        rw [List.flatMap_append, List.flatMap_map]

/-- Claim C5: the content-extraction batch stage returns a list of the same
length and order as its input; entry `i` keeps the metadata of input file
`i`, its `content_preview` is the outcome of that file's own extraction
(empty on per-file failure), and no file's outcome influences another entry
or a later window. -/
theorem c5_extraction_preserves_shape (o : Collaborators)
    (files : List ScannedFile) :
    buildFilesForApi files (extractLoop o files).1 =
      files.map (fun f =>
        ({ filename := f.filename
           extension := f.extension
           size_bytes := f.size_bytes
           content_preview := ((extractOne o f).1).getD ""
           path := f.path } : FileForApi)) ∧
    (buildFilesForApi files (extractLoop o files).1).length = files.length := by
  rw [extractLoop_eq_map o files.length files (Nat.le_refl _)]
  constructor
  · unfold buildFilesForApi
    induction files with
    | nil => rfl
    | cons f fs ih => simpa using ih
  · unfold buildFilesForApi
    rw [List.length_zipWith, List.length_map]
    exact Nat.min_self _

/-- A session holding the zero-confidence plan. -/
def sExec0 : OrganizeSession :=
  { sBase with organizeResult := some resultDocs0, scannedFiles := [fileA] }

/-- One logging iteration issues the same calls whatever the logging
endpoint returns (its outcome is swallowed). -/
theorem logOne_api_irrel (o : Collaborators)
    (la la' : LogRequest → Except String (HttpResp Unit))
    (sf : String) (folder : FolderSuggestion) (scanned : List ScannedFile)
    (fn : String) :
    logOne { o with logActionApi := la } sf folder scanned fn
      = logOne { o with logActionApi := la' } sf folder scanned fn := by
  unfold logOne
  cases scanned.find? (fun f => f.filename = fn) with
  | none => rfl
  | some file =>
    dsimp only
    split <;> split <;> rfl

/-- The whole logging loop issues the same calls whatever the logging
endpoint returns. -/
theorem logActions_api_irrel (o : Collaborators)
    (la la' : LogRequest → Except String (HttpResp Unit))
    (sf : String) (r : OrganizeResult) (scanned : List ScannedFile) :
    logActions { o with logActionApi := la } sf r scanned
      = logActions { o with logActionApi := la' } sf r scanned := by
  unfold logActions
  refine List.flatMap_congr ?_
  intro folder _
  refine List.flatMap_congr ?_
  intro fn _
  exact logOne_api_irrel o la la' sf folder scanned fn

/-- The execute handler's result (state and trace) does not depend on the
logging endpoint at all: per-call failures are caught and the response is
never read. -/
theorem handleExecute_api_irrel (o : Collaborators)
    (la la' : LogRequest → Except String (HttpResp Unit))
    (s : OrganizeSession) :
    handleExecuteOrganize { o with logActionApi := la } s
      = handleExecuteOrganize { o with logActionApi := la' } s := by
  unfold handleExecuteOrganize
  cases s.organizeResult with
  | none => rfl
  | some r =>
    dsimp only
    rw [logActions_api_irrel o la la' s.selectedFolder r s.scannedFiles]

/-- The logging loop issues the record-history call for every
`(folder, filename)` pair whose filename matches a scanned file. -/
theorem mem_logActions (o : Collaborators) (sf : String) (r : OrganizeResult)
    (scanned : List ScannedFile) (folder : FolderSuggestion) (fn : String)
    (file : ScannedFile)
    (hfolder : folder ∈ r.folders) (hfn : fn ∈ folder.files)
    (hfile : scanned.find? (fun f => f.filename = fn) = some file) :
    Call.http (.logAction
      { filename := file.filename
        source_path := file.path
        dest_path := sf ++ "\\" ++ folder.folder_path ++ "\\" ++ fn
        confidence := confOrDefault folder.confidence })
      ∈ logActions o sf r scanned := by
  unfold logActions
  rw [List.mem_flatMap]
  refine ⟨folder, hfolder, ?_⟩
  rw [List.mem_flatMap]
  refine ⟨fn, hfn, ?_⟩
  unfold logOne
  rw [hfile]
  dsimp only
  split <;> exact List.mem_singleton.mpr rfl

/-- Claim C8 as amended: for every filename of a folder suggestion with a
corresponding scanned file, one record-history call is issued whose
confidence equals the suggestion's confidence when it is nonzero, and `0.9`
when the suggestion's confidence is zero or missing (the JS falsy default
`folder.confidence || 0.9`); and the execution outcome (state and trace)
is entirely independent of the logging endpoint's responses. -/
theorem c8_logging_amended (o : Collaborators)
    (la la' : LogRequest → Except String (HttpResp Unit))
    (s : OrganizeSession) (r : OrganizeResult) (mres : MoveExecutionResult)
    (tok : Option String) (folder : FolderSuggestion) (filename : String)
    (file : ScannedFile)
    (hr : s.organizeResult = some r) (hf : s.selectedFolder ≠ "")
    (hm : o.execute_file_moves s.selectedFolder (buildMoves r s.scannedFiles) true
      = .ok mres)
    (hsuc : mres.success = true ∨ mres.moved_count > 0)
    (ht : o.get_access_token = .ok tok) (htok : tokenAbsent tok = false)
    (hfolder : folder ∈ r.folders) (hfn : filename ∈ folder.files)
    (hfile : s.scannedFiles.find? (fun f => f.filename = filename) = some file) :
    Call.http (.logAction
      { filename := file.filename
        source_path := file.path
        dest_path := s.selectedFolder ++ "\\" ++ folder.folder_path ++ "\\" ++ filename
        confidence := confOrDefault folder.confidence })
      ∈ (handleExecuteOrganize o s).2 ∧
    handleExecuteOrganize { o with logActionApi := la } s
      = handleExecuteOrganize { o with logActionApi := la' } s := by
  refine ⟨?_, handleExecute_api_irrel o la la' s⟩
  unfold handleExecuteOrganize
  rw [hr]
  simp only [if_neg hf, hm, ht]
  rw [if_pos hsuc]
  rw [if_neg (show ¬tokenAbsent tok = true by simp [htok])]
  simp only [List.mem_append, List.mem_cons]
  have hmem := mem_logActions o s.selectedFolder r s.scannedFiles folder filename file
    hfolder hfn hfile
  tauto

/-- Witness for C8 (amended) at the zero-confidence plan: the logged
confidence is the falsy default. -/
theorem c8_logging_amended_witness :
    Call.http (.logAction
      { filename := fileA.filename
        source_path := fileA.path
        dest_path := sExec0.selectedFolder ++ "\\" ++ folderDocs0.folder_path
          ++ "\\" ++ "a.pdf"
        confidence := confOrDefault folderDocs0.confidence })
      ∈ (handleExecuteOrganize oBase sExec0).2 ∧
    handleExecuteOrganize { oBase with logActionApi := fun _ => .error "down" } sExec0
      = handleExecuteOrganize { oBase with logActionApi := oBase.logActionApi } sExec0 :=
  c8_logging_amended oBase (fun _ => .error "down") oBase.logActionApi sExec0
    resultDocs0 { success := true, moved_count := 1, errors := [] } (some "tok")
    folderDocs0 "a.pdf" fileA
    rfl (by decide) (by rfl) (Or.inl rfl) rfl rfl
    (by simp [resultDocs0, resultDocs]) (by simp [folderDocs0, folderDocs]) (by rfl)

/-- Counterexample to C8 as stated: the suggestion's confidence is present
and equal to `0`, yet the issued record-history call carries `0.9`; no log
call in the trace carries the suggestion's actual confidence `0`. -/
theorem c8_zero_confidence_cex :
    folderDocs0.confidence = 0 ∧
    Call.http (HttpCall.logAction
      { filename := "a.pdf", source_path := "/f/a.pdf"
        dest_path := "/f\\Docs\\a.pdf", confidence := 9 / 10 })
      ∈ (handleExecuteOrganize oBase sExec0).2 ∧
    ∀ c ∈ (handleExecuteOrganize oBase sExec0).2, ∀ req,
      c = Call.http (HttpCall.logAction req) → req.confidence ≠ 0 := by
  have h : (handleExecuteOrganize oBase sExec0).2 =
      [Call.tauri (.executeFileMoves "/f"
          [{ source_path := "/f/a.pdf", dest_folder := "Docs", filename := "a.pdf" }] true),
       Call.tauri .getAccessToken,
       Call.http (HttpCall.logAction
         { filename := "a.pdf", source_path := "/f/a.pdf"
           dest_path := "/f\\Docs\\a.pdf", confidence := 9 / 10 }),
       Call.tauri .getRecentActions] := by rfl
  refine ⟨rfl, ?_, ?_⟩
  · rw [h]
    simp
  · rw [h]
    intro c hc req hceq
    subst hceq
    simp only [List.mem_cons, List.not_mem_nil, or_false] at hc
    rcases hc with h1 | h1 | h1 | h1 <;> simp_all

end Suryp
